import Mathlib

/-
Verification of the GuardianApiCognitoStack CDK stack
(src/cdk_stacks/api_cognito_auth_stack.py).

The stack is a one-pass declarative construction of cloud resources.  We
shallowly embed every construct the stack instantiates as a Lean structure
holding exactly the parameters the source passes, and build the stack's
resource model `guardianApiCognitoStack` by mirroring the Python
constructor line by line.  Implicit behaviour of the CDK library that the
claims depend on is modelled explicitly and documented at its definition:
  - `UserPoolResourceServer.user_pool_resource_server_id` is the
    CloudFormation Ref of the resource server, which resolves to its
    `identifier` string;
  - `OAuthScope.resource_server` produces the scope string
    "<resource-server-id>/<scope-name>";
  - a `RestApi` with `deploy=False` creates no implicit deployment and no
    implicit stage (with `deploy=True` CDK would create one of each);
  - `add_resource` with `default_cors_preflight_options` adds an OPTIONS
    preflight method to the resource.
-/

namespace Guardian

/- ---------------- EC2 / VPC ---------------- -/

inductive SubnetType where
  | PUBLIC
  | PRIVATE_ISOLATED
  | PRIVATE_WITH_EGRESS
deriving DecidableEq

structure SubnetConfiguration where
  name : String
  cidr_mask : Nat
  subnet_type : SubnetType
deriving DecidableEq

structure Vpc where
  construct_id : String
  ip_addresses : String
  max_azs : Nat
  subnet_configuration : List SubnetConfiguration
deriving DecidableEq

/- ---------------- Cognito ---------------- -/

inductive RemovalPolicy where
  | DESTROY
  | RETAIN
  | SNAPSHOT
deriving DecidableEq

structure UserPool where
  construct_id : String
  removal_policy : RemovalPolicy
deriving DecidableEq

/-- Hosted Cognito domain.  `cognito_domain` holds the `domain_prefix`
string of the `CognitoDomainOptions` passed in the source. -/
structure UserPoolDomain where
  construct_id : String
  user_pool : String
  cognito_domain : String
deriving DecidableEq

structure ResourceServerScope where
  scope_name : String
  scope_description : String
deriving DecidableEq

structure UserPoolResourceServer where
  construct_id : String
  user_pool : String
  user_pool_resource_server_name : String
  identifier : String
  scopes : List ResourceServerScope
deriving DecidableEq

/-- CDK attribute `user_pool_resource_server_id`: the CloudFormation Ref of
an AWS::Cognito::UserPoolResourceServer, which resolves to the resource
server's Identifier property. -/
def UserPoolResourceServer.user_pool_resource_server_id
    (rs : UserPoolResourceServer) : String :=
  rs.identifier

structure AuthFlow where
  user_srp : Bool := false
  user_password : Bool := false
  admin_user_password : Bool := false
  custom : Bool := false
deriving DecidableEq

structure OAuthFlows where
  client_credentials : Bool := false
  authorization_code_grant : Bool := false
  implicit_code_grant : Bool := false
deriving DecidableEq

structure OAuthScope where
  scope_name : String
deriving DecidableEq

/-- CDK `OAuthScope.resource_server(server, scope)`: a scope whose name is
the resource server id joined to the scope name by a slash. -/
def OAuthScope.resource_server (server : UserPoolResourceServer)
    (scope : ResourceServerScope) : OAuthScope :=
  ⟨server.user_pool_resource_server_id ++ "/" ++ scope.scope_name⟩

structure OAuthSettings where
  flows : OAuthFlows
  scopes : List OAuthScope
deriving DecidableEq

structure UserPoolClient where
  construct_id : String
  user_pool : String
  auth_flows : AuthFlow
  o_auth : OAuthSettings
  generate_secret : Bool
  user_pool_client_name : String
deriving DecidableEq

/- ---------------- IAM ---------------- -/

structure Role where
  construct_id : String
  assumed_by : String
  managed_policies : List String
deriving DecidableEq

/- ---------------- Lambda ---------------- -/

structure LambdaFunction where
  construct_id : String
  handler : String
  vpc : Option String
  runtime : String
  code : String
  role : Option String
deriving DecidableEq

/- ---------------- API Gateway ---------------- -/

structure CognitoUserPoolsAuthorizer where
  construct_id : String
  cognito_user_pools : List String
  authorizer_name : String
deriving DecidableEq

structure RestApi where
  construct_id : String
  description : String
  rest_api_name : String
  deploy : Bool
deriving DecidableEq

/-- CDK constant `Cors.ALL_ORIGINS`: the wildcard origin list. -/
def Cors.ALL_ORIGINS : List String := ["*"]

structure CorsOptions where
  allow_methods : List String
  allow_origins : List String
deriving DecidableEq

structure ApiResource where
  api : String
  path_part : String
  default_cors_preflight_options : Option CorsOptions
deriving DecidableEq

structure IntegrationResponse where
  status_code : String
  response_parameters : List (String × String)
deriving DecidableEq

structure LambdaIntegration where
  handler_fn : String
  proxy : Bool
  integration_responses : List IntegrationResponse
deriving DecidableEq

inductive AuthorizationType where
  | NONE
  | IAM
  | CUSTOM
  | COGNITO
deriving DecidableEq

structure MethodResponse where
  status_code : String
  response_parameters : List (String × Bool)
deriving DecidableEq

structure ApiMethod where
  resource_path : String
  http_method : String
  integration : Option LambdaIntegration
  authorizer : Option String
  authorization_scopes : List String
  authorization_type : AuthorizationType
  method_responses : List MethodResponse
deriving DecidableEq

structure Deployment where
  construct_id : String
  api : String
deriving DecidableEq

structure Stage where
  construct_id : String
  deployment : String
  stage_name : String
deriving DecidableEq

/- ---------------- The stack's resources, in source order ---------------- -/

def guardian_vpc : Vpc :=
  { construct_id := "GuardianVPC"
    ip_addresses := "10.2.0.0/16"
    max_azs := 1
    subnet_configuration :=
      [ { name := "GuardianSubnetPublic", cidr_mask := 24,
          subnet_type := SubnetType.PUBLIC },
        { name := "GuardianSubnetPrivate", cidr_mask := 24,
          subnet_type := SubnetType.PRIVATE_ISOLATED } ] }

def guardian_user_pool : UserPool :=
  { construct_id := "GuardianPool"
    removal_policy := RemovalPolicy.DESTROY }

def guardian_user_pool_domain : UserPoolDomain :=
  { construct_id := "GuardianUserPoolDomain"
    user_pool := guardian_user_pool.construct_id
    cognito_domain := "guardian" }

def guardian_readonly_scope : ResourceServerScope :=
  { scope_name := "guardian.read"
    scope_description := "Scope to read data only" }

def guardian_cognito_resource_server : UserPoolResourceServer :=
  { construct_id := "GuardianCognitoResourceServer"
    user_pool := guardian_user_pool.construct_id
    user_pool_resource_server_name := "GuardianCognitoResourceServer"
    identifier := "guardian-cognito-resource-server"
    scopes := [guardian_readonly_scope] }

def guardian_app_client : UserPoolClient :=
  { construct_id := "GuardianAppClient"
    user_pool := guardian_user_pool.construct_id
    auth_flows := { user_srp := true }
    o_auth :=
      { flows := { client_credentials := true }
        scopes :=
          [ OAuthScope.resource_server guardian_cognito_resource_server
              guardian_readonly_scope ] }
    generate_secret := true
    user_pool_client_name := "GuardianAppClient" }

def guardian_autorizer : CognitoUserPoolsAuthorizer :=
  { construct_id := "GuardianAPIAuthorizer"
    cognito_user_pools := [guardian_user_pool.construct_id]
    authorizer_name := "GuardianAPIAuthorizer" }

def guardian_lambda_role : Role :=
  { construct_id := "GuardianLambdaRole"
    assumed_by := "lambda.amazonaws.com"
    managed_policies := ["service-role/AWSLambdaVPCAccessExecutionRole"] }

def guardian_api_backend_lambda : LambdaFunction :=
  { construct_id := "GuardianReadLambda"
    handler := "api_read_lambda.handler"
    vpc := some guardian_vpc.construct_id
    runtime := "PYTHON_3_9"
    code := "./cdk_stacks/lambda"
    role := some guardian_lambda_role.construct_id }

def guardian_api : RestApi :=
  { construct_id := "GuardianApiGatewayWithCors"
    description :=
      "client_credentials grant authorization for Guardian API Gateway endpoint access"
    rest_api_name := "GuardianAPI"
    deploy := false }

def guardian_endpoint : ApiResource :=
  { api := guardian_api.construct_id
    path_part := "galaxy"
    default_cors_preflight_options :=
      some { allow_methods := ["GET", "OPTIONS"]
             allow_origins := Cors.ALL_ORIGINS } }

def guardian_endpoint_lambda_integration : LambdaIntegration :=
  { handler_fn := guardian_api_backend_lambda.construct_id
    proxy := true
    integration_responses :=
      [ { status_code := "200"
          response_parameters :=
            [("method.response.header.Access-Control-Allow-Origin",
              "\x27*\x27")] } ] }

def guardian_get_method : ApiMethod :=
  { resource_path := guardian_endpoint.path_part
    http_method := "GET"
    integration := some guardian_endpoint_lambda_integration
    authorizer := some guardian_autorizer.construct_id
    authorization_scopes :=
      [ guardian_cognito_resource_server.user_pool_resource_server_id
          ++ "/" ++ guardian_readonly_scope.scope_name ]
    authorization_type := AuthorizationType.COGNITO
    method_responses :=
      [ { status_code := "200"
          response_parameters :=
            [("method.response.header.Access-Control-Allow-Origin", true)] } ] }

def guardian_api_deployment : Deployment :=
  { construct_id := "GuardianAPIGWDeployment"
    api := guardian_api.construct_id }

def stage_names : List String := ["dev", "prod"]

def guardian_stages : List Stage :=
  stage_names.map fun s =>
    { construct_id := s ++ "_stage"
      deployment := guardian_api_deployment.construct_id
      stage_name := s }

/-- CDK behaviour: a RestApi constructed with `deploy=True` creates one
implicit deployment of its own; with `deploy=False` it creates none. -/
def rest_api_implicit_deployments (api : RestApi) : List Deployment :=
  if api.deploy then
    [{ construct_id := api.construct_id ++ "/Deployment", api := api.construct_id }]
  else []

/-- CDK behaviour: a RestApi constructed with `deploy=True` creates one
implicit stage (default stage name "prod"); with `deploy=False` it creates
none. -/
def rest_api_implicit_stages (api : RestApi) : List Stage :=
  if api.deploy then
    [{ construct_id := api.construct_id ++ "/DeploymentStage"
       deployment := api.construct_id ++ "/Deployment"
       stage_name := "prod" }]
  else []

/-- CDK behaviour: `add_resource` with `default_cors_preflight_options`
adds an unauthenticated OPTIONS preflight method to the resource. -/
def cors_preflight_methods (r : ApiResource) : List ApiMethod :=
  match r.default_cors_preflight_options with
  | some _ =>
      [ { resource_path := r.path_part
          http_method := "OPTIONS"
          integration := none
          authorizer := none
          authorization_scopes := []
          authorization_type := AuthorizationType.NONE
          method_responses := [] } ]
  | none => []

/- ---------------- The whole stack ---------------- -/

structure GuardianStackModel where
  vpcs : List Vpc
  user_pools : List UserPool
  user_pool_domains : List UserPoolDomain
  resource_servers : List UserPoolResourceServer
  user_pool_clients : List UserPoolClient
  authorizers : List CognitoUserPoolsAuthorizer
  roles : List Role
  lambda_functions : List LambdaFunction
  rest_apis : List RestApi
  api_resources : List ApiResource
  api_methods : List ApiMethod
  deployments : List Deployment
  stages : List Stage
deriving DecidableEq

/-- The resource model of `GuardianApiCognitoStack.__init__`: every
resource the constructor declares, in declaration order, together with the
implicit resources the library adds (preflight method; no implicit
deployment or stage since `deploy=False`). -/
def guardianApiCognitoStack : GuardianStackModel :=
  { vpcs := [guardian_vpc]
    user_pools := [guardian_user_pool]
    user_pool_domains := [guardian_user_pool_domain]
    resource_servers := [guardian_cognito_resource_server]
    user_pool_clients := [guardian_app_client]
    authorizers := [guardian_autorizer]
    roles := [guardian_lambda_role]
    lambda_functions := [guardian_api_backend_lambda]
    rest_apis := [guardian_api]
    api_resources := [guardian_endpoint]
    api_methods := cors_preflight_methods guardian_endpoint ++ [guardian_get_method]
    deployments := rest_api_implicit_deployments guardian_api ++ [guardian_api_deployment]
    stages := rest_api_implicit_stages guardian_api ++ guardian_stages }

/-- Reference-consistency of a stack model: every OAuth scope allowed on
any client is a scope declared on some resource server, that resource
server is attached to the client's own user pool, and every authorizer in
the stack references that same pool. -/
def reference_consistent (m : GuardianStackModel) : Bool :=
  m.user_pool_clients.all fun c =>
    c.o_auth.scopes.all fun s =>
      m.resource_servers.any fun rs =>
        rs.scopes.any fun sc =>
          s.scope_name == rs.user_pool_resource_server_id ++ "/" ++ sc.scope_name
          && rs.user_pool == c.user_pool
          && m.authorizers.all fun a => a.cognito_user_pools.contains c.user_pool

/- ---------------- Claims ---------------- -/

/-- C1: the GET method on the /galaxy resource (the unique GET method of
the stack) has authorization type COGNITO, references the Cognito
authorizer, and its required authorization scopes are exactly
["guardian-cognito-resource-server/guardian.read"], i.e. the resource
server identifier joined to the scope name by a slash. -/
theorem galaxy_get_method_cognito_scope :
    (guardianApiCognitoStack.api_methods.filter
        (fun m => m.http_method == "GET")) = [guardian_get_method]
    ∧ guardian_get_method.resource_path = "galaxy"
    ∧ guardian_get_method.authorization_type = AuthorizationType.COGNITO
    ∧ guardian_get_method.authorizer = some guardian_autorizer.construct_id
    ∧ guardian_get_method.authorization_scopes
        = ["guardian-cognito-resource-server/guardian.read"]
    ∧ "guardian-cognito-resource-server/guardian.read"
        = guardian_cognito_resource_server.identifier
            ++ "/" ++ guardian_readonly_scope.scope_name := by
  decide

/-- C2: the stack declares exactly one VPC, one user pool, one hosted
domain, one resource server carrying exactly one scope, one application
client, one execution role, one lambda function, one REST API, one
authorizer, and exactly two stages. -/
theorem stack_resource_counts :
    guardianApiCognitoStack.vpcs.length = 1
    ∧ guardianApiCognitoStack.user_pools.length = 1
    ∧ guardianApiCognitoStack.user_pool_domains.length = 1
    ∧ guardianApiCognitoStack.resource_servers.length = 1
    ∧ (guardianApiCognitoStack.resource_servers.map
        (fun rs => rs.scopes.length)) = [1]
    ∧ guardianApiCognitoStack.user_pool_clients.length = 1
    ∧ guardianApiCognitoStack.roles.length = 1
    ∧ guardianApiCognitoStack.lambda_functions.length = 1
    ∧ guardianApiCognitoStack.rest_apis.length = 1
    ∧ guardianApiCognitoStack.authorizers.length = 1
    ∧ guardianApiCognitoStack.stages.length = 2 := by
  decide

/-- C3: reference consistency of the declared resource graph: every scope
allowed on the application client is declared on a resource server that is
attached to the client's own user pool, and every authorizer of the stack
references that same pool — no dangling or cross-pool reference. -/
theorem stack_reference_consistent :
    reference_consistent guardianApiCognitoStack = true
    ∧ guardian_cognito_resource_server.user_pool
        = guardian_user_pool.construct_id
    ∧ guardian_app_client.user_pool = guardian_user_pool.construct_id
    ∧ guardian_autorizer.cognito_user_pools
        = [guardian_user_pool.construct_id] := by
  decide

/-- C4: the application client's allowed-scopes list is exactly the one
resource-server scope guardian.read on the guardian resource server, the
OAuth flow selection enables client-credentials, and a secret is
generated. -/
theorem app_client_scope_and_flows :
    guardian_app_client.o_auth.scopes
      = [OAuthScope.resource_server guardian_cognito_resource_server
           guardian_readonly_scope]
    ∧ (guardian_app_client.o_auth.scopes.map (fun s => s.scope_name))
        = ["guardian-cognito-resource-server/guardian.read"]
    ∧ guardian_readonly_scope.scope_name = "guardian.read"
    ∧ guardian_app_client.o_auth.flows.client_credentials = true
    ∧ guardian_app_client.generate_secret = true := by
  decide

/-- C5: exactly two stage resources are declared, named "dev" and "prod",
and both reference the single deployment resource of the REST API. -/
theorem two_stages_one_deployment :
    (guardianApiCognitoStack.stages.map (fun st => st.stage_name))
      = ["dev", "prod"]
    ∧ guardianApiCognitoStack.stages.length = 2
    ∧ (guardianApiCognitoStack.stages.all
        (fun st => st.deployment == guardian_api_deployment.construct_id)) = true
    ∧ guardianApiCognitoStack.deployments = [guardian_api_deployment]
    ∧ guardian_api_deployment.api = guardian_api.construct_id := by
  decide

/-- C6: the CORS preflight configuration on the /galaxy resource allows
exactly the methods GET and OPTIONS and allows all origins. -/
theorem galaxy_cors_preflight :
    guardianApiCognitoStack.api_resources = [guardian_endpoint]
    ∧ guardian_endpoint.path_part = "galaxy"
    ∧ guardian_endpoint.default_cors_preflight_options
        = some { allow_methods := ["GET", "OPTIONS"]
                 allow_origins := Cors.ALL_ORIGINS }
    ∧ Cors.ALL_ORIGINS = ["*"] := by
  decide

/-- C7: the lambda function references the declared VPC as its network
placement and the declared execution role as its role; neither is left to
the default. -/
theorem lambda_vpc_and_role :
    guardian_api_backend_lambda.vpc = some guardian_vpc.construct_id
    ∧ guardian_api_backend_lambda.role = some guardian_lambda_role.construct_id
    ∧ guardian_api_backend_lambda ∈ guardianApiCognitoStack.lambda_functions := by
  decide

/-- C8: the user pool is declared with removal policy DESTROY, so it is
deleted with the stack and not retained. -/
theorem user_pool_removal_destroy :
    guardian_user_pool.removal_policy = RemovalPolicy.DESTROY
    ∧ guardianApiCognitoStack.user_pools = [guardian_user_pool] := by
  decide

/-- C9: the application client enables the SRP user authentication flow in
addition to the client-credentials OAuth grant, so client-credentials is
not the only authentication flow enabled on the client. -/
theorem app_client_srp_flow_enabled :
    guardian_app_client.auth_flows.user_srp = true
    ∧ guardian_app_client.o_auth.flows.client_credentials = true := by
  decide

/-- C10: the REST API is constructed with automatic deployment disabled,
so the construct itself creates no deployment and no stage, and the
explicitly declared deployment shared by the two stages is the only
deployment in the stack. -/
theorem rest_api_deploy_disabled :
    guardian_api.deploy = false
    ∧ rest_api_implicit_deployments guardian_api = []
    ∧ rest_api_implicit_stages guardian_api = []
    ∧ guardianApiCognitoStack.deployments = [guardian_api_deployment] := by
  decide

end Guardian
